import Mathlib

/-!
# Verification of `pride.py` (tufty2040)

Shallow embedding of the program `src/pride.py`, which renders an animated
wave-distorted pride flag on a Tufty 2040 display.

Modelling conventions:
* Python floats are modelled as exact rationals (`ℚ`) where the computation is
  rational, and as reals (`ℝ`) where `math.sin` is involved; `math.sin` is
  `Real.sin`.  All numeric margins appearing in the proofs are many orders of
  magnitude larger than double-precision rounding error.
* Python `int(x)` (truncation toward zero) is `truncInt`.
* The generator `frange` is modelled with explicit fuel (number of loop
  iterations); theorems show its output is fuel-independent once the fuel
  exceeds `(stop - start)/step`, which is how termination of the generator is
  expressed.
* Display side effects (`set_pen` / `polygon`) are reified as a list of drawing
  commands; the main loop body's state mutation is the pure function
  `loopStep`.
* `WIDTH`, `HEIGHT` are the Tufty 2040 display bounds (320 × 240) returned by
  `display.get_bounds()`.
-/

namespace Pride

/-- Constant `COLS = 12`: how many columns the flag is split into (src/pride.py line 66). -/
def COLS : ℕ := 12

/-- Display width returned by `display.get_bounds()` on the Tufty 2040. -/
def WIDTH : ℕ := 320

/-- Display height returned by `display.get_bounds()` on the Tufty 2040. -/
def HEIGHT : ℕ := 240

/-- Constant `COL_WIDTH = WIDTH // COLS` (src/pride.py line 67). -/
def COL_WIDTH : ℕ := WIDTH / COLS

/-- Constant `FOUR_PI = 12.566` (src/pride.py line 70) — a literal constant, not `4 * π`. -/
def FOUR_PI : ℚ := 12.566

/-- Table `WEIGHTS = [0.0] + [min(1.0, (i / COLS) + 0.2) for i in range(COLS)]`
(src/pride.py line 73). -/
def WEIGHTS : List ℚ := [0] ++ (List.range COLS).map (fun i => min 1 ((i : ℚ) / COLS + 0.2))

/-- List `FLAGS = ["pan", "pride"]` (src/pride.py line 76). -/
def FLAGS : List String := ["pan", "pride"]

/-- Loop body of the generator `frange` (src/pride.py lines 102-107):
repeatedly `x += step; yield x`, and once `x > stop` also `yield stop` and
stop.  `fuel` bounds the number of loop iterations; each iteration emits one
value (or two on the final iteration).  The real generator is only ever pulled
finitely often; the fuel-stability theorem below shows the list is independent
of `fuel` once `fuel` is large enough, i.e. the generator terminates. -/
def frangeAux (stop step : ℚ) : ℕ → ℚ → List ℚ
  | 0, _ => []
  | fuel + 1, x =>
    let x2 := x + step
    if x2 > stop then [x2, stop] else x2 :: frangeAux stop step fuel x2

/-- Generator `frange(start, stop, step)` (src/pride.py lines 99-107): yields `start`,
then enters the loop modelled by `frangeAux`. -/
def frange (start stop step : ℚ) (fuel : ℕ) : List ℚ :=
  start :: frangeAux stop step fuel start

/-- Python `int()` applied to a float: truncation toward zero. -/
noncomputable def truncInt (x : ℝ) : ℤ :=
  if 0 ≤ x then ⌊x⌋ else ⌈x⌉

/-- The per-frame offset table `col_offsets` of `draw_flag`
(src/pride.py lines 110-114):

`[int(15 * weight * math.sin(offset + x)) for x, weight in
  zip(frange(0, FOUR_PI, FOUR_PI / (COLS + 1)), WEIGHTS)]`

with `offset = tick / 200`.  `zip` truncates at the shorter list (`WEIGHTS`,
13 entries); fuel 14 lets the generator run to its natural termination
(13 in-range steps, then the overshoot-and-clamp iteration), which is more
than `zip` consumes. -/
noncomputable def col_offsets (tick : ℝ) : List ℤ :=
  List.zipWith (fun x w => truncInt (15 * (w : ℝ) * Real.sin (tick / 200 + (x : ℝ))))
    (frange 0 FOUR_PI (FOUR_PI / (COLS + 1)) 14) WEIGHTS

/-- One reified drawing command of `draw_flag`: the four polygon corners and
the pen set just before `display.polygon([p0, p1, p2, p3])`.  The pen is an
`Option` because the source indexes `colors[0]` / `colors[1]`, which would
raise on a short list. -/
structure Cmd where
  p0 : ℤ × ℤ
  p1 : ℤ × ℤ
  p2 : ℤ × ℤ
  p3 : ℤ × ℤ
  pen : Option ℕ

/-- The quadrilateral drawn by `draw_flag` for strip row `row` and column
`col` (src/pride.py lines 117-128), given that row's color pair `colors`:

* `p0 = (col * COL_WIDTH, row * height_per_strip + col_offsets[col] + 30)`
* `p1 = (p0.x + COL_WIDTH, row * height_per_strip + col_offsets[col+1] + 30)`
* `p2 = (p1.x, p1.y + height_per_strip)`, `p3 = (p0.x, p0.y + height_per_strip)`
* `m = p0.y - p1.y`; pen is `colors[1]` (shade) if `m < -2` else `colors[0]`.

List indexing `col_offsets[col]` is total here (`col + 1 ≤ COLS` < length),
rendered with `getD`. -/
noncomputable def flagCmd (tick : ℝ) (colors : List ℕ) (height_per_strip : ℤ)
    (row col : ℕ) : Cmd :=
  let off := col_offsets tick
  let p0 : ℤ × ℤ := ((col : ℤ) * (COL_WIDTH : ℤ), (row : ℤ) * height_per_strip + off.getD col 0 + 30)
  let p1 : ℤ × ℤ := (p0.1 + (COL_WIDTH : ℤ), (row : ℤ) * height_per_strip + off.getD (col + 1) 0 + 30)
  let p2 : ℤ × ℤ := (p1.1, p1.2 + height_per_strip)
  let p3 : ℤ × ℤ := (p0.1, p0.2 + height_per_strip)
  let m := p0.2 - p1.2
  { p0 := p0, p1 := p1, p2 := p2, p3 := p3
    pen := if m < -2 then colors.get? 1 else colors.get? 0 }

/-- Function `draw_flag(tick, color_list, height_per_strip)` (src/pride.py lines
109-128) as the list of drawing commands it issues: for each
`(row, colors) in enumerate(color_list)` and each `col in range(COLS)`,
the command `flagCmd tick colors height_per_strip row col`. -/
noncomputable def draw_flag (tick : ℝ) (color_list : List (List ℕ))
    (height_per_strip : ℤ) : List Cmd :=
  color_list.enum.flatMap (fun rc => (List.range COLS).map (flagCmd tick rc.2 height_per_strip rc.1))

/-- Strip color pairs of the pansexual flag (src/pride.py lines 159-163). -/
def panColors : List (List ℕ) := [[2, 3], [4, 5], [6, 7]]

/-- Strip color pairs of the traditional pride flag (src/pride.py lines
183-190). -/
def prideColors : List (List ℕ) := [[2, 3], [4, 5], [6, 7], [8, 9], [10, 11], [12, 13]]

/-- Function `swap_pallette(mode)` (src/pride.py lines 142-193): sets the display
palette (a side effect, not modelled) and returns
`(colors, 180 // len(colors))`.  The local variable `colors` is only assigned
in the `"pan"` and `"pride"` branches; for any other `mode` the `return`
expression raises `UnboundLocalError`, modelled as `none`. -/
def swap_pallette (mode : String) : Option (List (List ℕ) × ℕ) :=
  if mode = "pan" then some (panColors, 180 / panColors.length)
  else if mode = "pride" then some (prideColors, 180 / prideColors.length)
  else none

/-- The JSON object parsed from `config.json`, restricted to the four keys
`load_config` inspects; `none` models a missing key. -/
structure RawConfig where
  default_flag : Option String
  title : Option String
  subtitle : Option String
  qrcode : Option String

/-- Function `load_config` (src/pride.py lines 78-97) after the file has parsed into
`c`: flag index is `FLAGS.index(c['default_flag'])` with `ValueError` caught
to 0, or 0 when the key is missing; `title`, `subtitle` default to
`"Lorem"` / `"Ipsum edit"`; the QR code's text (the payload handed to
`code.set_text`) defaults to `"https://example.com"`. -/
def load_config (c : RawConfig) : ℕ × String × String × String :=
  ((match c.default_flag with
    | some s => (FLAGS.indexOf? s).getD 0
    | none => 0),
   c.title.getD "Lorem",
   c.subtitle.getD "Ipsum edit",
   c.qrcode.getD "https://example.com")

/-- The backlight level written each frame (src/pride.py lines 266-267):
`light = min(0.5, lux.read_u16() / 7000); display.set_backlight(0.5 + light)`. -/
def backlightIntensity (raw : ℕ) : ℚ :=
  0.5 + min 0.5 ((raw : ℚ) / 7000)

/-- The five edge-triggered button reads and the two sensor reads the main
loop performs in one iteration. -/
structure Inputs where
  a : Bool
  b : Bool
  c : Bool
  up : Bool
  down : Bool
  now : ℕ
  lux : ℕ

/-- The mutable state carried across iterations of the main loop
(src/pride.py lines 210-267), plus the backlight value written during the
iteration. -/
structure LoopState where
  mode : String
  flag : ℕ
  strip_colors : List (List ℕ)
  strip_height : ℕ
  show_fps : Bool
  show_qr : Bool
  tick : ℕ
  backlight : ℚ

/-- One iteration of the main loop's state updates (src/pride.py lines
219-267), in source order:

1. `button_a` toggles `mode` between `"run"` and `"pause"` (if/elif, so one
   flip per press);
2. `button_up`: `flag = flag + 1 if flag != len(FLAGS) - 1 else 0`, then
   `strip_colors, strip_height = swap_pallette(FLAGS[flag])`;
3. `button_down`: `flag = flag - 1 if flag != 0 else len(FLAGS) - 1`, then
   the same refresh;
4. `button_b` toggles `show_qr`; `button_c` toggles `show_fps`;
5. if the (possibly just toggled) mode is `"run"`, `tick = time.ticks_ms()`;
6. after drawing, the backlight is set from the light sensor.

`swap_pallette` always succeeds on members of `FLAGS`; the `getD ([], 0)`
unwrap is never taken on reachable states. -/
def loopStep (i : Inputs) (s : LoopState) : LoopState :=
  let mode1 := if s.mode = "run" then (if i.a then "pause" else s.mode)
               else if s.mode = "pause" then (if i.a then "run" else s.mode)
               else s.mode
  let flag1 := if i.up then (if s.flag ≠ FLAGS.length - 1 then s.flag + 1 else 0) else s.flag
  let strips1 := if i.up then (swap_pallette (FLAGS.getD flag1 "")).getD ([], 0)
                 else (s.strip_colors, s.strip_height)
  let flag2 := if i.down then (if flag1 ≠ 0 then flag1 - 1 else FLAGS.length - 1) else flag1
  let strips2 := if i.down then (swap_pallette (FLAGS.getD flag2 "")).getD ([], 0)
                 else strips1
  let show_qr1 := if i.b then !s.show_qr else s.show_qr
  let show_fps1 := if i.c then !s.show_fps else s.show_fps
  let tick1 := if mode1 = "run" then i.now else s.tick
  { mode := mode1, flag := flag2, strip_colors := strips2.1, strip_height := strips2.2,
    show_fps := show_fps1, show_qr := show_qr1, tick := tick1,
    backlight := backlightIntensity i.lux }

/-! ## Helper lemmas (shared between claims) -/

theorem WEIGHTS_eq :
    WEIGHTS = [0, 1/5, 17/60, 11/30, 9/20, 8/15, 37/60, 7/10, 47/60, 13/15, 19/20, 1, 1] := by
  norm_num [WEIGHTS, COLS, List.range_succ]

theorem frange_flag_eq :
    frange 0 FOUR_PI (FOUR_PI / (COLS + 1)) 14 =
      [0, 6283/6500, 6283/3250, 18849/6500, 6283/1625, 6283/1300, 18849/3250, 43981/6500,
       12566/1625, 56547/6500, 6283/650, 69113/6500, 18849/1625, 6283/500, 43981/3250,
       6283/500] := by
  norm_num [frange, frangeAux, FOUR_PI, COLS]

theorem truncInt_zero : truncInt 0 = 0 := by
  simp [truncInt]

theorem truncInt_eq_of_nonneg {x : ℝ} {n : ℤ} (h0 : 0 ≤ x) (h1 : (n : ℝ) ≤ x)
    (h2 : x < n + 1) : truncInt x = n := by
  rw [truncInt, if_pos h0]
  exact Int.floor_eq_iff.mpr ⟨h1, h2⟩

theorem truncInt_eq_of_neg {x : ℝ} {n : ℤ} (h0 : x < 0) (h1 : (n : ℝ) - 1 < x)
    (h2 : x ≤ n) : truncInt x = n := by
  rw [truncInt, if_neg (not_le.mpr h0)]
  exact Int.ceil_eq_iff.mpr ⟨h1, h2⟩

/-- The 13 offsets actually computed per frame: weight and sine-argument of
entry `k` are `WEIGHTS[k]` and `k * (12.566 / 13)` written as explicit
rationals. -/
theorem col_offsets_eq (tick : ℝ) :
    col_offsets tick =
      [truncInt (15 * 0 * Real.sin (tick / 200 + 0)),
       truncInt (15 * (1/5) * Real.sin (tick / 200 + 6283/6500)),
       truncInt (15 * (17/60) * Real.sin (tick / 200 + 6283/3250)),
       truncInt (15 * (11/30) * Real.sin (tick / 200 + 18849/6500)),
       truncInt (15 * (9/20) * Real.sin (tick / 200 + 6283/1625)),
       truncInt (15 * (8/15) * Real.sin (tick / 200 + 6283/1300)),
       truncInt (15 * (37/60) * Real.sin (tick / 200 + 18849/3250)),
       truncInt (15 * (7/10) * Real.sin (tick / 200 + 43981/6500)),
       truncInt (15 * (47/60) * Real.sin (tick / 200 + 12566/1625)),
       truncInt (15 * (13/15) * Real.sin (tick / 200 + 56547/6500)),
       truncInt (15 * (19/20) * Real.sin (tick / 200 + 6283/650)),
       truncInt (15 * 1 * Real.sin (tick / 200 + 69113/6500)),
       truncInt (15 * 1 * Real.sin (tick / 200 + 18849/1625))] := by
  unfold col_offsets
  rw [frange_flag_eq, WEIGHTS_eq]
  norm_num [List.zipWith]

/-- Bounds `sin(6283/6500) ∈ (2/3, 6283/6500)`, by `x - x³/4 < sin x < x` on `(0, 1]`. -/
theorem sin_a1_bounds : (2:ℝ)/3 < Real.sin (6283/6500) ∧ Real.sin ((6283:ℝ)/6500) < 6283/6500 := by
  have h := @Real.sin_gt_sub_cube (6283/6500) (by norm_num) (by norm_num)
  exact ⟨by nlinarith [h], Real.sin_lt (by norm_num)⟩

/-- Bounds `sin(18849/6500) ∈ (0.238, 0.2418)`: the argument is `π - a` for
`a ∈ (0.2417458, 0.2417469)` and `sin` is bounded by `a - a³/4 < sin a < a`. -/
theorem sin_a3_bounds :
    (0.238:ℝ) < Real.sin (18849/6500) ∧ Real.sin ((18849:ℝ)/6500) < 0.2418 := by
  have hπ1 := Real.pi_gt_d6
  have hπ2 := Real.pi_lt_d6
  have key : Real.sin ((18849:ℝ)/6500) = Real.sin (Real.pi - 18849/6500) := by
    rw [Real.sin_pi_sub]
  have ha1 : (0.2417458 : ℝ) < Real.pi - 18849/6500 := by norm_num at hπ1 ⊢; linarith
  have ha2 : Real.pi - 18849/6500 < 0.2417469 := by norm_num at hπ2 ⊢; linarith
  have h0 : (0:ℝ) < Real.pi - 18849/6500 := by linarith
  have hcube := Real.sin_gt_sub_cube h0 (by linarith)
  have hup := Real.sin_lt h0
  have hpow : (Real.pi - 18849/6500)^3 < (0.2417469:ℝ)^3 :=
    pow_lt_pow_left₀ ha2 h0.le (by norm_num)
  rw [key]
  exact ⟨by nlinarith [hcube, ha1, hpow], by nlinarith [hup, ha2]⟩

/-- Bounds `sin(6283/1625) ∈ (-0.7249, -0.6296)`: the argument is `y + π` for
`y ∈ (0.7248685, 0.7248696)`, so the value is `-sin y`. -/
theorem sin_a4_bounds :
    Real.sin ((6283:ℝ)/1625) < -0.6296 ∧ (-0.7249:ℝ) < Real.sin (6283/1625) := by
  have hπ1 := Real.pi_gt_d6
  have hπ2 := Real.pi_lt_d6
  have key := Real.sin_add_pi (6283/1625 - Real.pi)
  rw [show (6283:ℝ)/1625 - Real.pi + Real.pi = 6283/1625 by ring] at key
  have hy1 : (0.7248685 : ℝ) < 6283/1625 - Real.pi := by norm_num at hπ2 ⊢; linarith
  have hy2 : (6283:ℝ)/1625 - Real.pi < 0.7248696 := by norm_num at hπ1 ⊢; linarith
  have h0 : (0:ℝ) < 6283/1625 - Real.pi := by linarith
  have hcube := Real.sin_gt_sub_cube h0 (by linarith)
  have hup := Real.sin_lt h0
  have hpow : ((6283:ℝ)/1625 - Real.pi)^3 < (0.7248696:ℝ)^3 :=
    pow_lt_pow_left₀ hy2 h0.le (by norm_num)
  rw [key]
  exact ⟨by nlinarith [hcube, hy1, hpow], by nlinarith [hup, hy2]⟩

/-- At `tick = 0`, offset entry 1 is `int(3 · sin(6283/6500)) = 2`. -/
theorem col_offsets_zero_entry1 : (col_offsets 0).get? 1 = some 2 := by
  have h := sin_a1_bounds
  rw [col_offsets_eq]
  simp only [List.get?_cons_succ, List.get?_cons_zero]
  rw [show (0:ℝ) / 200 + 6283/6500 = 6283/6500 by norm_num]
  exact congrArg some (truncInt_eq_of_nonneg (by nlinarith [h.1])
    (by push_cast; nlinarith [h.1]) (by push_cast; nlinarith [h.2]))

/-- At `tick = 0`, offset entry 3 is `int(5.5 · sin(18849/6500)) = 1`. -/
theorem col_offsets_zero_entry3 : (col_offsets 0).getD 3 0 = 1 := by
  have h := sin_a3_bounds
  rw [List.getD, col_offsets_eq]
  simp only [List.get?_cons_succ, List.get?_cons_zero, Option.getD_some]
  rw [show (0:ℝ) / 200 + 18849/6500 = 18849/6500 by norm_num]
  exact truncInt_eq_of_nonneg (by nlinarith [h.1])
    (by push_cast; nlinarith [h.1]) (by push_cast; nlinarith [h.2])

/-- At `tick = 0`, offset entry 4 is `int(6.75 · sin(6283/1625)) = -4`. -/
theorem col_offsets_zero_entry4 : (col_offsets 0).getD 4 0 = -4 := by
  have h := sin_a4_bounds
  rw [List.getD, col_offsets_eq]
  simp only [List.get?_cons_succ, List.get?_cons_zero, Option.getD_some]
  rw [show (0:ℝ) / 200 + 6283/1625 = 6283/1625 by norm_num]
  exact truncInt_eq_of_neg (by nlinarith [h.1])
    (by push_cast; nlinarith [h.2]) (by push_cast; nlinarith [h.1])

/-- Unfolding equation for one loop iteration of the generator. -/
theorem frangeAux_succ (stop step : ℚ) (fuel : ℕ) (x : ℚ) :
    frangeAux stop step (fuel + 1) x =
      if x + step > stop then [x + step, stop]
      else (x + step) :: frangeAux stop step fuel (x + step) := rfl

/-- Core induction for the generator loop: once the remaining distance
`stop - x` is at most `step * fuel`, one extra unit of fuel does not change
the output (the loop has hit its `break`), the output ends in `stop`, and the
element before that final `stop` is strictly greater than `stop`. -/
theorem frangeAux_run (stop step : ℚ) (hstep : 0 < step) :
    ∀ (fuel : ℕ) (x : ℚ), stop - x ≤ step * fuel →
      frangeAux stop step (fuel + 1) x = frangeAux stop step (fuel + 2) x ∧
      ∃ a t, (frangeAux stop step (fuel + 1) x).reverse = stop :: a :: t ∧ stop < a := by
  intro fuel
  induction fuel with
  | zero =>
    intro x hx
    have hgt : x + step > stop := by push_cast at hx; linarith
    rw [frangeAux_succ, frangeAux_succ, if_pos hgt, if_pos hgt]
    exact ⟨rfl, x + step, [], by simp, hgt⟩
  | succ n ih =>
    intro x hx
    have hidx : n + 1 + 2 = n + 2 + 1 := by omega
    rw [hidx]
    by_cases hgt : x + step > stop
    · rw [frangeAux_succ stop step (n + 1) x, frangeAux_succ stop step (n + 2) x,
        if_pos hgt, if_pos hgt]
      exact ⟨rfl, x + step, [], by simp, hgt⟩
    · push_neg at hgt
      have hx2 : stop - (x + step) ≤ step * n := by push_cast at hx ⊢; linarith
      obtain ⟨heq, a, t, hrev, ha⟩ := ih (x + step) hx2
      refine ⟨?_, a, t ++ [x + step], ?_, ha⟩
      · rw [frangeAux_succ stop step (n + 1) x, frangeAux_succ stop step (n + 2) x,
          if_neg (not_lt.mpr hgt), if_neg (not_lt.mpr hgt), heq]
      · rw [frangeAux_succ stop step (n + 1) x, if_neg (not_lt.mpr hgt)]
        simp [hrev]

/-- The generator's output is independent of the fuel bound once the fuel
covers the distance from `start` to `stop`. -/
theorem frange_stable (start stop step : ℚ) (fuel : ℕ) (hstep : 0 < step)
    (hfuel : stop - start ≤ step * fuel) :
    ∀ g : ℕ, fuel + 1 ≤ g → frange start stop step g = frange start stop step (fuel + 1) := by
  intro g hg
  induction g with
  | zero => omega
  | succ m ih =>
    rcases Nat.lt_or_ge (fuel + 1) (m + 1) with hlt | hge
    · have hm : fuel + 1 ≤ m := by omega
      have hm2 : fuel ≤ m - 1 := by omega
      have : stop - start ≤ step * (m - 1 : ℕ) := by
        calc stop - start ≤ step * fuel := hfuel
          _ ≤ step * (m - 1 : ℕ) := by
            apply mul_le_mul_of_nonneg_left _ hstep.le
            exact_mod_cast hm2
      have hstep1 := (frangeAux_run stop step hstep (m - 1) start this).1
      have hm1 : m - 1 + 1 = m := by omega
      have hm1' : m - 1 + 2 = m + 1 := by omega
      rw [hm1, hm1'] at hstep1
      calc frange start stop step (m + 1)
          = frange start stop step m := by rw [frange, frange, ← hstep1]
        _ = frange start stop step (fuel + 1) := ih hm
    · have : m + 1 = fuel + 1 := le_antisymm hge hg
      rw [this]

/-- Unfolded form of `flagCmd` (the lets of the source inlined). -/
theorem flagCmd_def (tick : ℝ) (colors : List ℕ) (hgt : ℤ) (row col : ℕ) :
    flagCmd tick colors hgt row col =
      { p0 := ((col : ℤ) * (COL_WIDTH : ℤ), (row : ℤ) * hgt + (col_offsets tick).getD col 0 + 30),
        p1 := ((col : ℤ) * (COL_WIDTH : ℤ) + (COL_WIDTH : ℤ),
               (row : ℤ) * hgt + (col_offsets tick).getD (col + 1) 0 + 30),
        p2 := ((col : ℤ) * (COL_WIDTH : ℤ) + (COL_WIDTH : ℤ),
               (row : ℤ) * hgt + (col_offsets tick).getD (col + 1) 0 + 30 + hgt),
        p3 := ((col : ℤ) * (COL_WIDTH : ℤ),
               (row : ℤ) * hgt + (col_offsets tick).getD col 0 + 30 + hgt),
        pen := if ((row : ℤ) * hgt + (col_offsets tick).getD col 0 + 30) -
                  ((row : ℤ) * hgt + (col_offsets tick).getD (col + 1) 0 + 30) < -2
               then colors.get? 1 else colors.get? 0 } := rfl

/-! ## Claim C1 -/

/-- C1, counterexample.  At `tick = 0`, the quadrilateral of row 0, column 3
(pan flag, color pair `[2, 3]`, strip height 60 — the startup state) has
top-left y 31 and top-right y 26: top-right minus top-left is `-5 < -2`, so
the claim says the shaded pen (3) is selected; the code selects the main pen
(2). -/
theorem claim1_counterexample :
    (flagCmd 0 [2, 3] 60 0 3).p1.2 - (flagCmd 0 [2, 3] 60 0 3).p0.2 < -2 ∧
    (flagCmd 0 [2, 3] 60 0 3).pen = some 2 ∧ (flagCmd 0 [2, 3] 60 0 3).pen ≠ some 3 := by
  have h3 : (col_offsets 0)[3]?.getD 0 = 1 := by
    rw [← List.getD_eq_getElem?_getD]
    exact col_offsets_zero_entry3
  have h4 : (col_offsets 0)[4]?.getD 0 = -4 := by
    rw [← List.getD_eq_getElem?_getD]
    exact col_offsets_zero_entry4
  rw [flagCmd_def]
  norm_num [h3, h4, COL_WIDTH, WIDTH, COLS]

/-- C1 (amended): every quadrilateral drawn by `draw_flag` is a `flagCmd`
for some strip row and column, and (whenever the strip's two pens differ)
its pen is the shaded color iff the top-LEFT corner's y minus the top-RIGHT
corner's y is less than `-2` — i.e. the right edge is LOWER than the left
edge by more than 2 units (the sign opposite to the claim's). -/
theorem claim1_amended (tick : ℝ) (color_list : List (List ℕ)) (hgt : ℤ) (cmd : Cmd)
    (hmem : cmd ∈ draw_flag tick color_list hgt) :
    ∃ row col colors, color_list.get? row = some colors ∧ col < COLS ∧
      cmd = flagCmd tick colors hgt row col ∧
      (colors.get? 0 ≠ colors.get? 1 →
        (cmd.pen = colors.get? 1 ↔ cmd.p0.2 - cmd.p1.2 < -2)) := by
  rw [draw_flag] at hmem
  obtain ⟨rc, hrc, hcmd⟩ := List.mem_flatMap.mp hmem
  obtain ⟨col, hcol, rfl⟩ := List.mem_map.mp hcmd
  obtain ⟨row, colors⟩ := rc
  have hrow : color_list.get? row = some colors := by
    have h := List.mk_mem_enum_iff_getElem?.mp hrc
    rwa [List.get?_eq_getElem?]
  refine ⟨row, col, colors, hrow, List.mem_range.mp hcol, rfl, ?_⟩
  intro hne
  rw [flagCmd_def]
  show (if ((row : ℤ) * hgt + (col_offsets tick).getD col 0 + 30) -
          ((row : ℤ) * hgt + (col_offsets tick).getD (col + 1) 0 + 30) < -2
        then colors.get? 1 else colors.get? 0) = colors.get? 1 ↔
      ((row : ℤ) * hgt + (col_offsets tick).getD col 0 + 30) -
        ((row : ℤ) * hgt + (col_offsets tick).getD (col + 1) 0 + 30) < -2
  split_ifs with hlt
  · exact iff_of_true rfl hlt
  · exact iff_of_false hne hlt

/-- Witness for C1 (amended), at the startup pan flag's single-row list and
the quadrilateral of row 0, column 0, `tick = 0`. -/
theorem claim1_amended_witness :
    ∃ row col colors, ([[2, 3]] : List (List ℕ)).get? row = some colors ∧ col < COLS ∧
      flagCmd 0 [2, 3] 60 0 0 = flagCmd 0 colors 60 row col ∧
      (colors.get? 0 ≠ colors.get? 1 →
        ((flagCmd 0 [2, 3] 60 0 0).pen = colors.get? 1 ↔
          (flagCmd 0 [2, 3] 60 0 0).p0.2 - (flagCmd 0 [2, 3] 60 0 0).p1.2 < -2)) :=
  claim1_amended 0 [[2, 3]] 60 (flagCmd 0 [2, 3] 60 0 0) (by
    rw [draw_flag]
    exact List.mem_flatMap.mpr ⟨(0, [2, 3]), by simp [List.enum],
      List.mem_map.mpr ⟨0, List.mem_range.mpr (by norm_num [COLS]), rfl⟩⟩)

/-! ## Claim C2 -/

/-- C2, counterexample.  At `tick = 0`, entry 1 of the code's offset table is
`int(15 · 0.2 · sin(12.566/13)) = 2`, while the claim's formula
`round(15 · min(1, 1/12 + 0.2) · sin(0/200 + 1 · 4π/12))
 = round(15 · (17/60) · sin(π/3)) = round(3.6806...) = 4`. -/
theorem claim2_counterexample :
    (col_offsets 0).get? 1 ≠
      some (round (15 * min 1 ((1:ℝ)/(COLS : ℝ) + 0.2) *
        Real.sin ((0:ℝ)/200 + 1 * (4 * Real.pi / (COLS : ℝ))))) := by
  have hmin : min 1 ((1:ℝ)/(COLS : ℝ) + 0.2) = 17/60 := by norm_num [COLS]
  have hang : (0:ℝ)/200 + 1 * (4 * Real.pi / (COLS : ℝ)) = Real.pi/3 := by
    norm_num [COLS]
    ring
  have hspec : round (15 * min 1 ((1:ℝ)/(COLS : ℝ) + 0.2) *
      Real.sin ((0:ℝ)/200 + 1 * (4 * Real.pi / (COLS : ℝ)))) = 4 := by
    rw [hmin, hang, Real.sin_pi_div_three]
    have h3 : Real.sqrt 3 ^ 2 = 3 := Real.sq_sqrt (by norm_num)
    have h0 : (0:ℝ) ≤ Real.sqrt 3 := Real.sqrt_nonneg 3
    have hlb : (1.73205:ℝ) < Real.sqrt 3 := by nlinarith
    have hub : Real.sqrt 3 < 1.73206 := by nlinarith
    rw [round_eq]
    have h4 : (4:ℤ) ≤ ⌊15 * (17/60) * (Real.sqrt 3 / 2) + 1/2⌋ := by
      apply Int.le_floor.mpr; push_cast; nlinarith
    have h5 : ⌊15 * (17/60) * (Real.sqrt 3 / 2) + 1/2⌋ < 5 := by
      apply Int.floor_lt.mpr; push_cast; nlinarith
    omega
  rw [col_offsets_zero_entry1, hspec]
  simp

/-- C2 (amended): for every tick and every `i ≤ COLS`, entry `i` of the
offset table equals the Python `int`-truncation (toward zero) of
`15 · WEIGHTS[i] · sin(tick/200 + i · FOUR_PI/(COLS+1))`, where
`FOUR_PI = 12.566` and `WEIGHTS[0] = 0`,
`WEIGHTS[i] = min(1, (i-1)/COLS + 0.2)` for `i ≥ 1` — not `round`, not
angle step `4π/COLS`, and not weight `min(1, i/COLS + 0.2)`. -/
theorem claim2_amended (tick : ℝ) (i : ℕ) (h : i ≤ COLS) :
    (col_offsets tick).get? i =
      some (truncInt (15 * ((WEIGHTS.getD i 0 : ℚ) : ℝ) *
        Real.sin (tick / 200 + (i : ℝ) * (((FOUR_PI : ℚ) : ℝ) / ((COLS : ℝ) + 1))))) := by
  rw [col_offsets_eq, WEIGHTS_eq]
  rw [show COLS = 12 from rfl] at h
  interval_cases i <;>
    norm_num [FOUR_PI, COLS, List.get?_cons_succ, List.get?_cons_zero]

/-- Witness for C2 (amended) at `tick = 0`, `i = 0`. -/
theorem claim2_amended_witness :
    0 ≤ COLS ∧
    (col_offsets 0).get? 0 =
      some (truncInt (15 * ((WEIGHTS.getD 0 0 : ℚ) : ℝ) *
        Real.sin ((0:ℝ) / 200 + ((0:ℕ) : ℝ) * (((FOUR_PI : ℚ) : ℝ) / ((COLS : ℝ) + 1))))) :=
  ⟨Nat.zero_le _, claim2_amended 0 0 (Nat.zero_le _)⟩

/-! ## Claim C3 -/

/-- C3 (evaluation of the code at the claim's failing input): in the Paused
state, as long as the mode-toggle button A is not pressed, a loop iteration
leaves `tick` unchanged whatever buttons are pressed, the mode stays
`"pause"`, and the docstring's "step" button C merely toggles the FPS
overlay.  This contradicts the claim (and the file docstring
"C = Step through animation"): no input advances `tick` by one frame unit
while Paused. -/
theorem claim3_paused_no_step (s : LoopState) (i : Inputs)
    (hmode : s.mode = "pause") (ha : i.a = false) :
    (loopStep i s).tick = s.tick ∧ (loopStep i s).mode = "pause" ∧
      (i.c = true → (loopStep i s).show_fps = !s.show_fps) := by
  simp [loopStep, hmode, ha]

/-- Witness for C3's theorem at a concrete paused state with button C
pressed. -/
theorem claim3_paused_no_step_witness :
    (loopStep ⟨false, false, true, false, false, 99, 0⟩
        ⟨"pause", 0, [], 0, false, false, 42, 0⟩).tick = 42 ∧
    (loopStep ⟨false, false, true, false, false, 99, 0⟩
        ⟨"pause", 0, [], 0, false, false, 42, 0⟩).mode = "pause" ∧
    (true = true → (loopStep ⟨false, false, true, false, false, 99, 0⟩
        ⟨"pause", 0, [], 0, false, false, 42, 0⟩).show_fps = !false) :=
  claim3_paused_no_step ⟨"pause", 0, [], 0, false, false, 42, 0⟩
    ⟨false, false, true, false, false, 99, 0⟩ rfl rfl

/-! ## Claim C4 -/

/-- C4: for every tick, the offset table has exactly `COLS + 1 = 13` entries
and its first entry (the flagpole edge, weight 0) is 0 regardless of the
sine value. -/
theorem claim4_offsets_shape (tick : ℝ) :
    (col_offsets tick).length = COLS + 1 ∧ (col_offsets tick).get? 0 = some 0 := by
  rw [col_offsets_eq]
  refine ⟨by norm_num [COLS], ?_⟩
  simp only [List.get?_cons_zero]
  rw [show 15 * (0:ℝ) * Real.sin (tick / 200 + 0) = 0 by ring, truncInt_zero]

/-! ## Claim C5 -/

/-- C5: each missing optional config field is replaced by its documented
default (flag index 0, title "Lorem", subtitle "Ipsum edit", QR payload
"https://example.com"); a file containing only `{"title": "X"}` yields
exactly the defaults plus that title; an unknown flag name also falls back
to index 0. -/
theorem claim5_config_defaults (c : RawConfig) :
    (c.default_flag = none → (load_config c).1 = 0) ∧
    (c.title = none → (load_config c).2.1 = "Lorem") ∧
    (c.subtitle = none → (load_config c).2.2.1 = "Ipsum edit") ∧
    (c.qrcode = none → (load_config c).2.2.2 = "https://example.com") ∧
    (∀ s, c.default_flag = some s → s ∉ FLAGS → (load_config c).1 = 0) ∧
    load_config ⟨none, some "X", none, none⟩ = (0, "X", "Ipsum edit", "https://example.com") := by
  refine ⟨fun h => by simp [load_config, h], fun h => by simp [load_config, h],
    fun h => by simp [load_config, h], fun h => by simp [load_config, h],
    fun s hdf hmem => ?_, rfl⟩
  have hidx : FLAGS.indexOf? s = none :=
    List.indexOf?_eq_none_iff.mpr (fun x hx => by
      simp only [beq_iff_eq]
      exact fun h => hmem (h ▸ hx))
  simp [load_config, hdf, hidx]

/-- Witness for C5 at a config whose flag name is not a known variant and
whose other fields are missing. -/
theorem claim5_config_defaults_witness :
    (load_config ⟨some "rainbow", none, none, none⟩).1 = 0 ∧
    (load_config ⟨some "rainbow", none, none, none⟩).2.1 = "Lorem" :=
  ⟨(claim5_config_defaults ⟨some "rainbow", none, none, none⟩).2.2.2.2.1 "rainbow" rfl
      (by simp [FLAGS]),
   (claim5_config_defaults ⟨some "rainbow", none, none, none⟩).2.1 rfl⟩

/-! ## Claim C6 -/

/-- C6: variant cycling wraps in both directions — "next" (button up) at the
last index yields index 0, "previous" (button down) at index 0 yields the
last index — and each press refreshes the strip table to
`swap_pallette(FLAGS[flag])` for the new index. -/
theorem claim6_variant_wrap (s : LoopState) (i : Inputs) :
    (i.up = true → i.down = false → s.flag = FLAGS.length - 1 →
      (loopStep i s).flag = 0 ∧
      ((loopStep i s).strip_colors, (loopStep i s).strip_height) =
        (swap_pallette (FLAGS.getD 0 "")).getD ([], 0)) ∧
    (i.down = true → i.up = false → s.flag = 0 →
      (loopStep i s).flag = FLAGS.length - 1 ∧
      ((loopStep i s).strip_colors, (loopStep i s).strip_height) =
        (swap_pallette (FLAGS.getD (FLAGS.length - 1) "")).getD ([], 0)) := by
  constructor
  · intro hup hdown hflag
    simp [loopStep, hup, hdown, hflag, FLAGS]
  · intro hdown hup hflag
    simp [loopStep, hup, hdown, hflag, FLAGS]

/-- Witness for C6: concrete wrap in both directions from the startup
state's variants. -/
theorem claim6_variant_wrap_witness :
    ((loopStep ⟨false, false, false, true, false, 0, 0⟩
        ⟨"run", 1, [], 0, false, false, 0, 0⟩).flag = 0 ∧
      ((loopStep ⟨false, false, false, true, false, 0, 0⟩
          ⟨"run", 1, [], 0, false, false, 0, 0⟩).strip_colors,
       (loopStep ⟨false, false, false, true, false, 0, 0⟩
          ⟨"run", 1, [], 0, false, false, 0, 0⟩).strip_height) =
        (swap_pallette (FLAGS.getD 0 "")).getD ([], 0)) ∧
    ((loopStep ⟨false, false, false, false, true, 0, 0⟩
        ⟨"run", 0, [], 0, false, false, 0, 0⟩).flag = FLAGS.length - 1 ∧
      ((loopStep ⟨false, false, false, false, true, 0, 0⟩
          ⟨"run", 0, [], 0, false, false, 0, 0⟩).strip_colors,
       (loopStep ⟨false, false, false, false, true, 0, 0⟩
          ⟨"run", 0, [], 0, false, false, 0, 0⟩).strip_height) =
        (swap_pallette (FLAGS.getD (FLAGS.length - 1) "")).getD ([], 0)) :=
  ⟨(claim6_variant_wrap ⟨"run", 1, [], 0, false, false, 0, 0⟩
      ⟨false, false, false, true, false, 0, 0⟩).1 rfl rfl rfl,
   (claim6_variant_wrap ⟨"run", 0, [], 0, false, false, 0, 0⟩
      ⟨false, false, false, false, true, 0, 0⟩).2 rfl rfl rfl⟩

/-! ## Claim C7 -/

/-- C7: `swap_pallette` returns 3 strip color pairs with strip height 60 for
"pan" and 6 pairs with height 30 for "pride"; each height is `180`
integer-divided by the number of strips. -/
theorem claim7_strip_tables :
    swap_pallette "pan" = some (panColors, 60) ∧ panColors.length = 3 ∧
      60 = 180 / panColors.length ∧
    swap_pallette "pride" = some (prideColors, 30) ∧ prideColors.length = 6 ∧
      30 = 180 / prideColors.length := by
  refine ⟨?_, rfl, rfl, ?_, rfl, rfl⟩ <;> simp [swap_pallette, panColors, prideColors]

/-! ## Claim C8 -/

/-- C8: the backlight set each frame equals `0.5 + min(0.5, raw/7000)`, is
always within `[0.5, 1]`, and takes the documented values at raw samples
0, 7000 and 14000. -/
theorem claim8_backlight (s : LoopState) (i : Inputs) :
    (loopStep i s).backlight = 0.5 + min 0.5 ((i.lux : ℚ) / 7000) ∧
    1/2 ≤ (loopStep i s).backlight ∧ (loopStep i s).backlight ≤ 1 ∧
    backlightIntensity 0 = 1/2 ∧ backlightIntensity 7000 = 1 ∧
    backlightIntensity 14000 = 1 := by
  have h0 : (0:ℚ) ≤ min 0.5 ((i.lux : ℚ) / 7000) :=
    le_min (by norm_num) (by positivity)
  have h1 : min 0.5 ((i.lux : ℚ) / 7000) ≤ 0.5 := min_le_left _ _
  have hb : (loopStep i s).backlight = 0.5 + min 0.5 ((i.lux : ℚ) / 7000) := rfl
  refine ⟨hb, ?_, ?_, by norm_num [backlightIntensity], by norm_num [backlightIntensity],
    by norm_num [backlightIntensity]⟩
  · rw [hb]; linarith
  · rw [hb]; linarith

/-! ## Claim C9 -/

/-- C9: for `step > 0` and `start ≤ stop`, the generator `frange` terminates
after finitely many yields — its output is the same for every fuel bound of
at least `(stop - start)/step` loop iterations — its final yielded value is
exactly `stop`, and the value yielded immediately before that final `stop`
is strictly greater than `stop` (the overshoot-and-clamp behavior). -/
theorem claim9_frange_termination (start stop step : ℚ) (fuel : ℕ)
    (hstep : 0 < step) (hss : start ≤ stop) (hfuel : stop - start ≤ step * fuel) :
    (∀ g : ℕ, fuel + 1 ≤ g → frange start stop step g = frange start stop step (fuel + 1)) ∧
    ∃ a t, (frange start stop step (fuel + 1)).reverse = stop :: a :: t ∧ stop < a := by
  refine ⟨frange_stable start stop step fuel hstep hfuel, ?_⟩
  obtain ⟨heq, a, t, hrev, ha⟩ := frangeAux_run stop step hstep fuel start hfuel
  refine ⟨a, t ++ [start], ?_, ha⟩
  rw [frange]
  simp [hrev]

/-- Witness for C9 with `start = 0`, `stop = 1`, `step = 1`, fuel bound 1:
the run is `[0, 1, 2, 1]` — stable under extra fuel, ending in the clamped
`stop` preceded by the overshoot value 2. -/
theorem claim9_frange_termination_witness :
    frange 0 1 1 3 = frange 0 1 1 2 ∧ (frange 0 1 1 2).reverse = [1, 2, 1, 0] :=
  ⟨(claim9_frange_termination 0 1 1 1 (by norm_num) (by norm_num) (by norm_num)).1 3
      (by norm_num),
   by norm_num [frange, frangeAux]⟩

/-! ## Claim C10 -/

/-- C10: `swap_pallette` returns normally exactly for the variant
identifiers "pan" and "pride"; every other argument leaves the `colors`
local unbound at the return expression, so the call fails (modelled as
`none`) — there is no default branch. -/
theorem claim10_swap_pallette_domain (mode : String) :
    (swap_pallette mode).isSome = true ↔ (mode = "pan" ∨ mode = "pride") := by
  rw [swap_pallette]
  split_ifs <;> simp [*]

end Pride
